import Mathlib

/-
  Verification of the rick-roller-chatgpt-app MCP server (src/main.py).

  Shallow embedding: the catalog, the pydantic input model, and the four
  request handlers are translated into pure Lean functions.  JSON argument
  values are modelled by `JVal`; metadata dictionaries by association lists
  of string keys to `MetaVal`.  Pydantic v2 validation of the `RickToolInput`
  model (one optional `bool` field, `extra="forbid"`, default lax mode) is
  modelled field by field, including the lax coercion documented by pydantic of
  ints 0/1 and the recognized boolean strings into `bool`.
-/

set_option autoImplicit false

namespace RickRoller

/-- JSON-like values that can appear in tool-call arguments. -/
inductive JVal where
  | jbool : Bool → JVal
  | jint : Int → JVal
  | jstr : String → JVal
  | jnull : JVal
deriving DecidableEq, Repr

/-- Widget descriptor, mirroring the frozen dataclass `RickWidget` in src/main.py. -/
structure RickWidget where
  identifier : String
  title : String
  template_uri : String
  invoking : String
  invoked : String
  html : String
  response_text : String
deriving DecidableEq, Repr

/-- The `_RICK_IFRAME` HTML literal from src/main.py (Python adjacent-literal
concatenation flattened into one Lean string). -/
def RICK_IFRAME : String :=
  "<div style=\"display:flex;flex-direction:column;gap:12px;\">\n" ++
  "  <h2 style=\"margin:0;font-size:16px;\">Never Gonna Give You Up</h2>\n" ++
  "  <div style=\"position:relative;padding-bottom:56.25%;height:0;overflow:hidden;border-radius:8px;\">\n" ++
  "    <video controls autoplay style=\"position:absolute;top:0;left:0;width:100%;height:100%;\" " ++
  "src=\"https://cdn-useast1.kapwing.com/static/templates/rick-roll-video-meme-template-video-1da252ec.mp4\"></video>\n" ++
  "  </div>\n" ++
  "</div>\n"

/-- The single catalog entry from src/main.py. -/
def rickWidget : RickWidget :=
  { identifier := "rick-roll"
    title := "Rick Roll Player"
    template_uri := "ui://widget/rick-roll.html"
    invoking := "Loading the Rick Roll..."
    invoked := "Enjoy the Rick Roll!"
    html := RICK_IFRAME
    response_text := "Rick Roll widget ready" }

/-- The catalog list `widgets`. -/
def widgets : List RickWidget := [rickWidget]

/-- `WIDGETS_BY_ID` dict lookup: identifiers are unique, so dict-comprehension
lookup coincides with first-match search over the list. -/
def WIDGETS_BY_ID (id : String) : Option RickWidget :=
  widgets.find? (fun w => w.identifier == id)

/-- `WIDGETS_BY_URI` dict lookup. -/
def WIDGETS_BY_URI (uri : String) : Option RickWidget :=
  widgets.find? (fun w => w.template_uri == uri)

/-- The validated pydantic model `RickToolInput`: one boolean field defaulting
to `False`. -/
structure RickToolInput where
  autoplay : Bool := false
deriving DecidableEq, Repr

/-- ASCII lower-casing, character by character (kernel-computable spelling of
`str.lower()` on the inputs at hand). -/
def strLower (s : String) : String :=
  ⟨s.data.map Char.toLower⟩

/-- Pydantic v2 lax coercion of a JSON value into `bool`: a bool itself; ints
0/1; a string whose lower-casing is one of the twelve recognized boolean
strings.  Everything else fails. -/
def coerceBool : JVal → Option Bool
  | .jbool b => some b
  | .jint n => if n = 0 then some false else if n = 1 then some true else none
  | .jstr s =>
      let l := strLower s
      if l = "0" ∨ l = "off" ∨ l = "f" ∨ l = "false" ∨ l = "n" ∨ l = "no" then some false
      else if l = "1" ∨ l = "on" ∨ l = "t" ∨ l = "true" ∨ l = "y" ∨ l = "yes" then some true
      else none
  | .jnull => none

/-- One field-level diagnostic of a pydantic `ValidationError`. -/
structure ValErr where
  etype : String
  loc : String
deriving DecidableEq, Repr

/-- Diagnostics contributed by one argument entry: unknown keys are rejected
(`extra="forbid"`); a present `autoplay` must coerce to bool. -/
def fieldErrors : String × JVal → List ValErr
  | (k, v) =>
    if k = "autoplay" then
      match coerceBool v with
      | some _ => []
      | none =>
          [{ etype := match v with
               | .jstr _ => "bool_parsing"
               | .jint _ => "bool_parsing"
               | _ => "bool_type"
             loc := "autoplay" }]
    else [{ etype := "extra_forbidden", loc := k }]

/-- `RickToolInput.model_validate(args)`: collects per-field diagnostics;
succeeds with the coerced `autoplay` (default `false`) iff there are none. -/
def model_validate (args : List (String × JVal)) :
    Except (List ValErr) RickToolInput :=
  match (args.map fieldErrors).flatten with
  | [] =>
      .ok { autoplay :=
              match args.find? (fun kv => kv.1 == "autoplay") with
              | some kv => (coerceBool kv.2).getD false
              | none => false }
  | e :: es => .error (e :: es)

/-- Rendering of `exc.errors()` into the error text of the handler. -/
def renderErr (e : ValErr) : String := e.etype ++ " @ " ++ e.loc

/-- Rendering of the full diagnostics list. -/
def renderErrors (es : List ValErr) : String :=
  String.intercalate "; " (es.map renderErr)

/-- The read-only/non-destructive/closed-world annotation triple. -/
structure AnnotTriple where
  destructiveHint : Bool
  openWorldHint : Bool
  readOnlyHint : Bool
deriving DecidableEq, Repr

/-- The embedded resource built by `_call_tool_request`
(`types.EmbeddedResource`; the inner `TextResourceContents` fields are
inlined, its own `_meta` being absent there). -/
structure EmbeddedResource where
  type : String
  uri : String
  mimeType : String
  text : String
  title : Option String := none
deriving DecidableEq, Repr

/-- Values appearing in `_meta` dictionaries. -/
inductive MetaVal where
  | mstr : String → MetaVal
  | mbool : Bool → MetaVal
  | mannot : AnnotTriple → MetaVal
  | mwidget : EmbeddedResource → MetaVal
deriving DecidableEq, Repr

/-- A `_meta` dictionary. -/
abbrev Meta := List (String × MetaVal)

/-- Dictionary lookup in a `_meta` mapping. -/
def metaLookup (m : Meta) (k : String) : Option MetaVal :=
  (m.find? (fun kv => kv.1 == k)).map (fun kv => kv.2)

/-- Whether a `_meta` mapping carries the `annotations` key. -/
def hasAnnotKey (m : Meta) : Bool :=
  m.any (fun kv => kv.1 == "annotations")

/-- `_tool_meta(widget)` from src/main.py. -/
def _tool_meta (w : RickWidget) : Meta :=
  [("openai/outputTemplate", .mstr w.template_uri),
   ("openai/toolInvocation/invoking", .mstr w.invoking),
   ("openai/toolInvocation/invoked", .mstr w.invoked),
   ("openai/widgetAccessible", .mbool true),
   ("openai/resultCanProduceWidget", .mbool true),
   ("annotations", .mannot { destructiveHint := false
                             openWorldHint := false
                             readOnlyHint := true })]

/-- One property entry of the static JSON schema. -/
structure PropSchema where
  type : String
  description : String
deriving DecidableEq, Repr

/-- Shape of `TOOL_INPUT_SCHEMA`. -/
structure ToolInputSchema where
  type : String
  properties : List (String × PropSchema)
  additionalProperties : Bool
deriving DecidableEq, Repr

/-- `TOOL_INPUT_SCHEMA` from src/main.py. -/
def TOOL_INPUT_SCHEMA : ToolInputSchema :=
  { type := "object"
    properties := [("autoplay", { type := "boolean", description := "Autoplay the video" })]
    additionalProperties := false }

/-- A `types.Tool` descriptor as produced by `_list_tools`. -/
structure Tool where
  name : String
  title : String
  description : String
  inputSchema : ToolInputSchema
  meta : Meta
deriving DecidableEq, Repr

/-- A `types.Resource` descriptor as produced by `_list_resources`. -/
structure Resource where
  name : String
  title : String
  uri : String
  description : String
  mimeType : String
  meta : Meta
deriving DecidableEq, Repr

/-- A `types.ResourceTemplate` descriptor as produced by
`_list_resource_templates`. -/
structure ResourceTemplate where
  name : String
  title : String
  uriTemplate : String
  description : String
  mimeType : String
  meta : Meta
deriving DecidableEq, Repr

/-- `_list_tools` handler (deepcopy of the static schema is the identity in a
pure model). -/
def _list_tools : List Tool :=
  widgets.map (fun w =>
    { name := w.identifier
      title := w.title
      description := "Plays the Rick Astley video in a widget"
      inputSchema := TOOL_INPUT_SCHEMA
      meta := _tool_meta w })

/-- `_list_resources` handler. -/
def _list_resources : List Resource :=
  widgets.map (fun w =>
    { name := w.title
      title := w.title
      uri := w.template_uri
      description := "Rick Roll widget markup"
      mimeType := "text/html+skybridge"
      meta := _tool_meta w })

/-- `_list_resource_templates` handler. -/
def _list_resource_templates : List ResourceTemplate :=
  widgets.map (fun w =>
    { name := w.title
      title := w.title
      uriTemplate := w.template_uri
      description := "Rick Roll widget markup"
      mimeType := "text/html+skybridge"
      meta := _tool_meta w })

/-- A `types.TextResourceContents` entry of a read-resource result. -/
structure TextResourceContents where
  uri : String
  mimeType : String
  text : String
  meta : Option Meta := none
deriving DecidableEq, Repr

/-- A `types.ReadResourceResult`. -/
structure ReadResourceResult where
  contents : List TextResourceContents
  meta : Option Meta := none
deriving DecidableEq, Repr

/-- `_handle_read_resource` handler. -/
def _handle_read_resource (uri : String) : ReadResourceResult :=
  match WIDGETS_BY_URI uri with
  | none =>
      { contents := []
        meta := some [("error", .mstr "Unknown resource")] }
  | some w =>
      { contents := [{ uri := w.template_uri
                       mimeType := "text/html+skybridge"
                       text := w.html
                       meta := some (_tool_meta w) }]
        meta := none }

/-- A `types.TextContent` block. -/
structure TextContent where
  type : String
  text : String
deriving DecidableEq, Repr

/-- The `structuredContent` payload of a tool result. -/
abbrev StructuredContent := List (String × JVal)

/-- A `types.CallToolResult`. -/
structure CallToolResult where
  content : List TextContent
  structuredContent : Option StructuredContent := none
  isError : Bool := false
  meta : Option Meta := none
deriving DecidableEq, Repr

/-- `_call_tool_request` handler.  `arguments` is `Option` because the request
may omit the mapping (`req.params.arguments or {}`).  The single-use Python locals of the handler (`args`, `html`, `embedded`, `meta`) are inlined. -/
def _call_tool_request (name : String)
    (arguments : Option (List (String × JVal))) : CallToolResult :=
  match WIDGETS_BY_ID name with
  | none =>
      { content := [{ type := "text", text := "Unknown tool" }]
        isError := true }
  | some w =>
      match model_validate (arguments.getD []) with
      | .error errs =>
          { content := [{ type := "text"
                          text := "Validation error: " ++ renderErrors errs }]
            isError := true }
      | .ok payload =>
          { content := [{ type := "text", text := w.response_text }]
            structuredContent := some [("autoplay", .jbool payload.autoplay)]
            isError := false
            meta := some
              [("openai.com/widget", .mwidget
                 { type := "resource"
                   uri := w.template_uri
                   mimeType := "text/html+skybridge"
                   text := w.html
                   title := some w.title }),
               ("openai/outputTemplate", .mstr w.template_uri),
               ("openai/toolInvocation/invoking", .mstr w.invoking),
               ("openai/toolInvocation/invoked", .mstr w.invoked),
               ("openai/widgetAccessible", .mbool true),
               ("openai/resultCanProduceWidget", .mbool true)] }

/-- Whether validation of an argument mapping succeeds. -/
def validationOk (args : List (String × JVal)) : Bool :=
  match model_validate args with
  | .ok _ => true
  | .error _ => false

/-- The HTML body embedded under the `openai.com/widget` key of a tool
metadata of a tool result, when present. -/
def embeddedHtml (r : CallToolResult) : Option String :=
  match r.meta with
  | none => none
  | some m =>
      match metaLookup m "openai.com/widget" with
      | some (.mwidget e) => some e.text
      | _ => none

/-- Whether a URI string begins with the given scheme text (spelled over the
character list so the kernel can evaluate it). -/
def schemeIs (uri scheme : String) : Bool :=
  uri.data.take scheme.data.length == scheme.data


/-! ## Helper lemmas -/

/-- A tool call for `"rick-roll"` whose argument validation fails produces the
validation-error result. -/
theorem call_tool_rickroll_error (args : List (String × JVal)) (errs : List ValErr)
    (hm : model_validate args = Except.error errs) :
    _call_tool_request "rick-roll" (some args) =
      { content := [{ type := "text", text := "Validation error: " ++ renderErrors errs }]
        structuredContent := none
        isError := true
        meta := none } := by
  unfold _call_tool_request
  rw [show WIDGETS_BY_ID "rick-roll" = some rickWidget from rfl]
  simp only [Option.getD]
  rw [hm]

/-- A tool call for `"rick-roll"` whose argument validation succeeds produces
the success result, whose metadata embeds the widget HTML. -/
theorem call_tool_rickroll_ok (args : List (String × JVal)) (p : RickToolInput)
    (hm : model_validate args = Except.ok p) :
    _call_tool_request "rick-roll" (some args) =
      { content := [{ type := "text", text := rickWidget.response_text }]
        structuredContent := some [("autoplay", JVal.jbool p.autoplay)]
        isError := false
        meta := some
          [("openai.com/widget", .mwidget
             { type := "resource"
               uri := rickWidget.template_uri
               mimeType := "text/html+skybridge"
               text := rickWidget.html
               title := some rickWidget.title }),
           ("openai/outputTemplate", .mstr rickWidget.template_uri),
           ("openai/toolInvocation/invoking", .mstr rickWidget.invoking),
           ("openai/toolInvocation/invoked", .mstr rickWidget.invoked),
           ("openai/widgetAccessible", .mbool true),
           ("openai/resultCanProduceWidget", .mbool true)] } := by
  unfold _call_tool_request
  rw [show WIDGETS_BY_ID "rick-roll" = some rickWidget from rfl]
  simp only [Option.getD]
  rw [hm]

/-! ## Claims -/

/-- Claim C1: for every identifier in the catalog, CallTool with valid
arguments returns a non-error result whose structured-content `autoplay` field
equals the supplied value (or `false` when the arguments are omitted), and
whose text content block equals the `responseText` of the widget. -/
theorem C1_call_tool_success (w : RickWidget) (hw : w ∈ widgets) (b : Bool) :
    ((_call_tool_request w.identifier (some [("autoplay", JVal.jbool b)])).isError = false ∧
     (_call_tool_request w.identifier (some [("autoplay", JVal.jbool b)])).structuredContent =
       some [("autoplay", JVal.jbool b)] ∧
     (_call_tool_request w.identifier (some [("autoplay", JVal.jbool b)])).content =
       [{ type := "text", text := w.response_text }]) ∧
    ((_call_tool_request w.identifier none).isError = false ∧
     (_call_tool_request w.identifier none).structuredContent =
       some [("autoplay", JVal.jbool false)] ∧
     (_call_tool_request w.identifier none).content =
       [{ type := "text", text := w.response_text }]) := by
  simp only [widgets, List.mem_singleton] at hw
  subst hw
  cases b <;> constructor <;> refine ⟨rfl, rfl, rfl⟩

/-- Witness for C1 at the concrete catalog entry with `autoplay := true`. -/
theorem C1_witness :
    (_call_tool_request rickWidget.identifier (some [("autoplay", JVal.jbool true)])).structuredContent =
      some [("autoplay", JVal.jbool true)] :=
  (C1_call_tool_success rickWidget (by simp [widgets]) true).1.2.1

/-- Claim C2 counterexample: the catalogued templateURI is
`ui://widget/rick-roll.html`, not of the `uri://` scheme, and reading
`uri://widget/rick-roll.html` hits the not-found branch (empty contents). -/
theorem C2_counterexample :
    rickWidget.template_uri = "ui://widget/rick-roll.html" ∧
    schemeIs rickWidget.template_uri "uri://" = false ∧
    (_handle_read_resource "uri://widget/rick-roll.html").contents = [] ∧
    (_handle_read_resource "uri://widget/rick-roll.html").meta =
      some [("error", MetaVal.mstr "Unknown resource")] := by
  refine ⟨rfl, rfl, rfl, rfl⟩

/-- Claim C2 as amended: the templateURI uses the `ui://` scheme, and
ReadResource of `ui://widget/rick-roll.html` returns exactly one content
entry with MIME `text/html+skybridge` whose body is the stored HTML. -/
theorem C2_amended_read_resource :
    schemeIs rickWidget.template_uri "ui://" = true ∧
    (_handle_read_resource "ui://widget/rick-roll.html").contents.map
      (fun c => (c.mimeType, c.text)) = [("text/html+skybridge", rickWidget.html)] := by
  refine ⟨rfl, rfl⟩

/-- Claim C3 counterexample: `CallTool("rick-roll", {autoplay: "yes"})` is NOT
an error — the pydantic lax mode coerces the string `"yes"` to `true`. -/
theorem C3_counterexample :
    (_call_tool_request "rick-roll" (some [("autoplay", JVal.jstr "yes")])).isError = false ∧
    (_call_tool_request "rick-roll" (some [("autoplay", JVal.jstr "yes")])).structuredContent =
      some [("autoplay", JVal.jbool true)] := by
  refine ⟨rfl, rfl⟩

/-- Claim C3 as amended: a present `autoplay` value that does not coerce to a
boolean under the lax rules of pydantic yields an error-flagged result whose text
embeds the field-level diagnostics of the validator for `autoplay`. -/
theorem C3_amended_validation_error (v : JVal) (h : coerceBool v = none) :
    ∃ errs, model_validate [("autoplay", v)] = Except.error errs ∧
      errs ≠ [] ∧ (∀ e ∈ errs, e.loc = "autoplay") ∧
      (_call_tool_request "rick-roll" (some [("autoplay", v)])).isError = true ∧
      (_call_tool_request "rick-roll" (some [("autoplay", v)])).content =
        [{ type := "text", text := "Validation error: " ++ renderErrors errs }] := by
  have hf : ∃ t, fieldErrors ("autoplay", v) = [{ etype := t, loc := "autoplay" }] := by
    cases v with
    | jbool b => simp [coerceBool] at h
    | jint n => exact ⟨"bool_parsing", by simp [fieldErrors, h]⟩
    | jstr s => exact ⟨"bool_parsing", by simp [fieldErrors, h]⟩
    | jnull => exact ⟨"bool_type", by simp [fieldErrors, h]⟩
  obtain ⟨t, ht⟩ := hf
  have hflat : ([("autoplay", v)].map fieldErrors).flatten =
      [{ etype := t, loc := "autoplay" }] := by
    calc ([("autoplay", v)].map fieldErrors).flatten
        = fieldErrors ("autoplay", v) ++ [] := rfl
      _ = [{ etype := t, loc := "autoplay" }] := by rw [ht]; rfl
  have hm : model_validate [("autoplay", v)] =
      Except.error [{ etype := t, loc := "autoplay" }] := by
    unfold model_validate
    rw [hflat]
  refine ⟨[{ etype := t, loc := "autoplay" }], hm, by simp, ?_, ?_, ?_⟩
  · intro e he
    rw [List.mem_singleton] at he
    rw [he]
  · rw [call_tool_rickroll_error _ _ hm]
  · rw [call_tool_rickroll_error _ _ hm]

/-- Witness for the amended C3 at the concrete non-coercible input `null`. -/
theorem C3_amended_witness :
    coerceBool JVal.jnull = none ∧
    ∃ errs, model_validate [("autoplay", JVal.jnull)] = Except.error errs ∧
      errs ≠ [] ∧ (∀ e ∈ errs, e.loc = "autoplay") ∧
      (_call_tool_request "rick-roll" (some [("autoplay", JVal.jnull)])).isError = true ∧
      (_call_tool_request "rick-roll" (some [("autoplay", JVal.jnull)])).content =
        [{ type := "text", text := "Validation error: " ++ renderErrors errs }] :=
  ⟨rfl, C3_amended_validation_error JVal.jnull rfl⟩

/-- Claim C4: a CallTool on a known identifier whose arguments contain any
field other than `autoplay` yields an error-flagged result. -/
theorem C4_unknown_field_rejected (w : RickWidget) (hw : w ∈ widgets)
    (args : List (String × JVal)) (k : String) (v : JVal)
    (hk : (k, v) ∈ args) (hne : k ≠ "autoplay") :
    (_call_tool_request w.identifier (some args)).isError = true := by
  simp only [widgets, List.mem_singleton] at hw
  subst hw
  have h1 : fieldErrors (k, v) = [{ etype := "extra_forbidden", loc := k }] := by
    simp [fieldErrors, hne]
  have h2 : fieldErrors (k, v) ∈ args.map fieldErrors :=
    List.mem_map_of_mem fieldErrors hk
  have h3 : (args.map fieldErrors).flatten ≠ [] := by
    intro hc
    have h4 := (List.flatten_eq_nil_iff.mp hc) _ h2
    rw [h1] at h4
    exact List.cons_ne_nil _ _ h4
  cases hj : (args.map fieldErrors).flatten with
  | nil => exact absurd hj h3
  | cons e es =>
    have hm : model_validate args = Except.error (e :: es) := by
      unfold model_validate
      rw [hj]
    show (_call_tool_request "rick-roll" (some args)).isError = true
    rw [call_tool_rickroll_error args (e :: es) hm]

/-- Witness for C4 at the concrete input named by the spec as a test property. -/
theorem C4_witness :
    (_call_tool_request rickWidget.identifier (some [("unexpected", JVal.jint 1)])).isError = true :=
  C4_unknown_field_rejected rickWidget (by simp [widgets]) [("unexpected", JVal.jint 1)]
    "unexpected" (JVal.jint 1) (by simp) (by decide)

/-- Claim C5: CallTool for a name absent from the catalog returns the
error-flagged "Unknown tool" result, whatever the arguments. -/
theorem C5_unknown_tool (name : String) (arguments : Option (List (String × JVal)))
    (h : name ∉ widgets.map RickWidget.identifier) :
    _call_tool_request name arguments =
      { content := [{ type := "text", text := "Unknown tool" }]
        structuredContent := none
        isError := true
        meta := none } := by
  simp only [widgets, List.map_cons, List.map_nil, List.mem_singleton] at h
  have hne : (rickWidget.identifier == name) = false :=
    beq_eq_false_iff_ne.mpr (fun hc => h hc.symm)
  have hid : WIDGETS_BY_ID name = none := by
    simp [WIDGETS_BY_ID, widgets, List.find?, hne]
  unfold _call_tool_request
  rw [hid]

/-- Witness for C5 at the concrete test input named by the spec. -/
theorem C5_witness :
    _call_tool_request "nonexistent-id" (some []) =
      { content := [{ type := "text", text := "Unknown tool" }]
        structuredContent := none
        isError := true
        meta := none } :=
  C5_unknown_tool "nonexistent-id" (some []) (by decide)

/-- Claim C6: ReadResource for a URI absent from the catalog returns an empty
content list with `{error: Unknown resource}` metadata, as a normal result. -/
theorem C6_unknown_resource (uri : String)
    (h : uri ∉ widgets.map RickWidget.template_uri) :
    _handle_read_resource uri =
      { contents := []
        meta := some [("error", MetaVal.mstr "Unknown resource")] } := by
  simp only [widgets, List.map_cons, List.map_nil, List.mem_singleton] at h
  have hne : (rickWidget.template_uri == uri) = false :=
    beq_eq_false_iff_ne.mpr (fun hc => h hc.symm)
  have hid : WIDGETS_BY_URI uri = none := by
    simp [WIDGETS_BY_URI, widgets, List.find?, hne]
  unfold _handle_read_resource
  rw [hid]

/-- Witness for C6 at the concrete test input named by the spec. -/
theorem C6_witness :
    _handle_read_resource "uri://nope" =
      { contents := []
        meta := some [("error", MetaVal.mstr "Unknown resource")] } :=
  C6_unknown_resource "uri://nope" (by decide)

/-- Claim C7 counterexample: the metadata of the single ListResources entry
DOES carry the read-only/non-destructive/closed-world annotation triple, so
the triple is not confined to tool listings. -/
theorem C7_counterexample :
    _list_resources.map (fun r => metaLookup r.meta "annotations") =
      [some (MetaVal.mannot
        { destructiveHint := false, openWorldHint := false, readOnlyHint := true })] := by
  rfl

/-- Claim C7 as amended: the annotation triple appears in the metadata of tool
listings, resource listings, resource-template listings and of ReadResource
success contents, and is absent only from CallTool response metadata (and
from the ReadResource error metadata, which holds just the error field). -/
theorem C7_amended_annot_placement :
    (_list_tools.map (fun t => metaLookup t.meta "annotations") =
      [some (MetaVal.mannot
        { destructiveHint := false, openWorldHint := false, readOnlyHint := true })]) ∧
    (_list_resource_templates.map (fun r => metaLookup r.meta "annotations") =
      [some (MetaVal.mannot
        { destructiveHint := false, openWorldHint := false, readOnlyHint := true })]) ∧
    (∀ uri, (_handle_read_resource uri).contents.all
        (fun c => hasAnnotKey (c.meta.getD [])) = true) ∧
    (∀ uri, hasAnnotKey (((_handle_read_resource uri).meta).getD []) = false) ∧
    (∀ name arguments,
      hasAnnotKey (((_call_tool_request name arguments).meta).getD []) = false) := by
  refine ⟨rfl, rfl, ?_, ?_, ?_⟩
  · intro uri
    unfold _handle_read_resource
    cases hv : WIDGETS_BY_URI uri with
    | none => rfl
    | some w => rfl
  · intro uri
    unfold _handle_read_resource
    cases hv : WIDGETS_BY_URI uri with
    | none => rfl
    | some w => rfl
  · intro name arguments
    unfold _call_tool_request
    cases hv : WIDGETS_BY_ID name with
    | none => rfl
    | some w =>
      cases hm : model_validate (arguments.getD []) with
      | error errs => rfl
      | ok payload => rfl

/-- Witness for the amended C7 at a concrete CallTool response. -/
theorem C7_amended_witness :
    hasAnnotKey (((_call_tool_request "rick-roll" none).meta).getD []) = false :=
  C7_amended_annot_placement.2.2.2.2 "rick-roll" none

/-- Claim C8: every input to the handlers maps to a well-formed response: a
CallTool result always has exactly one text block and is either error-flagged
or carries structured content; a ReadResource result is either the not-found
shape or a one-entry success; the list handlers return one descriptor each. -/
theorem C8_handlers_total :
    (∀ name arguments,
       (_call_tool_request name arguments).content.length = 1 ∧
       ((_call_tool_request name arguments).isError = true ∨
        ((_call_tool_request name arguments).isError = false ∧
         ((_call_tool_request name arguments).structuredContent).isSome = true))) ∧
    (∀ uri,
       _handle_read_resource uri =
         { contents := [], meta := some [("error", MetaVal.mstr "Unknown resource")] } ∨
       ((_handle_read_resource uri).contents.length = 1 ∧
        (_handle_read_resource uri).meta = none)) ∧
    (_list_tools.length = 1 ∧ _list_resources.length = 1 ∧
     _list_resource_templates.length = 1) := by
  refine ⟨?_, ?_, rfl, rfl, rfl⟩
  · intro name arguments
    unfold _call_tool_request
    cases hv : WIDGETS_BY_ID name with
    | none => exact ⟨rfl, Or.inl rfl⟩
    | some w =>
      cases hm : model_validate (arguments.getD []) with
      | error errs => exact ⟨rfl, Or.inl rfl⟩
      | ok payload => exact ⟨rfl, Or.inr ⟨rfl, rfl⟩⟩
  · intro uri
    unfold _handle_read_resource
    cases hv : WIDGETS_BY_URI uri with
    | none => exact Or.inl rfl
    | some w => exact Or.inr ⟨rfl, rfl⟩

/-- Witness for C8 at a concrete request pair. -/
theorem C8_witness :
    (_call_tool_request "rick-roll" none).content.length = 1 ∧
    ((_handle_read_resource "uri://nope") =
       { contents := [], meta := some [("error", MetaVal.mstr "Unknown resource")] } ∨
     ((_handle_read_resource "uri://nope").contents.length = 1 ∧
      (_handle_read_resource "uri://nope").meta = none)) :=
  ⟨(C8_handlers_total.1 "rick-roll" none).1, C8_handlers_total.2.1 "uri://nope"⟩

/-- Claim C9: the tool and resource listings each hold exactly one descriptor
matching the single catalog entry (name = identifier, URI = templateURI, MIME
`text/html+skybridge`); the handlers are constants, so repeated calls agree. -/
theorem C9_listings_match_catalog :
    _list_tools.map Tool.name = widgets.map RickWidget.identifier ∧
    _list_tools.map Tool.title = widgets.map RickWidget.title ∧
    _list_resources.map Resource.uri = widgets.map RickWidget.template_uri ∧
    _list_resources.map Resource.mimeType = ["text/html+skybridge"] ∧
    _list_tools.length = 1 ∧ _list_resources.length = 1 :=
  ⟨rfl, rfl, rfl, rfl, rfl, rfl⟩

/-- Claim C10: for every valid CallTool invocation on a catalog identifier,
the HTML embedded in the result metadata is exactly the stored HTML of the widget
— the same body ReadResource returns for the URI of the widget — independently of
the autoplay argument. -/
theorem C10_embedded_html_invariant (arguments : Option (List (String × JVal)))
    (h : validationOk (arguments.getD []) = true)
    (w : RickWidget) (hw : w ∈ widgets) :
    embeddedHtml (_call_tool_request w.identifier arguments) = some w.html ∧
    (_handle_read_resource w.template_uri).contents.map (fun c => c.text) =
      [w.html] := by
  simp only [widgets, List.mem_singleton] at hw
  subst hw
  constructor
  · cases arguments with
    | none => rfl
    | some args =>
      cases hm : model_validate args with
      | error errs =>
        exfalso
        simp only [Option.getD_some] at h
        unfold validationOk at h
        rw [hm] at h
        exact Bool.noConfusion h
      | ok payload =>
        show embeddedHtml (_call_tool_request "rick-roll" (some args)) =
          some rickWidget.html
        rw [call_tool_rickroll_ok args payload hm]
        rfl
  · rfl

/-- Witness for C10 at a concrete valid invocation with `autoplay := true`. -/
theorem C10_witness :
    embeddedHtml
      (_call_tool_request rickWidget.identifier (some [("autoplay", JVal.jbool true)])) =
      some rickWidget.html :=
  (C10_embedded_html_invariant (some [("autoplay", JVal.jbool true)]) (by decide)
    rickWidget (by simp [widgets])).1

end RickRoller
